import Mathlib

/-!
Verification development for the DC-motor characterization controller of
`src/Lab2/MicroPython/Completo.py` (the canonical variant), together with the
command branch of `src/Lab2/MicroPython/RPM_Punto2.py` where a property is
about that variant.  Every definition below transcribes the cited source
lines; the only definitions written from the specification text are marked
`Modelled from the spec:` in their doc comment.
-/

namespace Motor

/-- Whitespace characters recognized by Python `str.strip()` / `str.split()`
for the ASCII command lines handled by the program. -/
def is_ws (c : Char) : Bool := c = ' ' || c = '\t' || c = '\n' || c = '\r'

/-- Python `cmd.strip()` on a character list. -/
def strip_chars (cs : List Char) : List Char :=
  ((cs.dropWhile is_ws).reverse.dropWhile is_ws).reverse

/-- Python `cmd.upper()` on a character list. -/
def upper_chars (cs : List Char) : List Char := cs.map Char.toUpper

/-- Python `cmd.startswith(p)` on character lists (first argument: the
candidate head). -/
def has_pref : List Char → List Char → Bool
  | [], _ => true
  | _ :: _, [] => false
  | p :: ps, c :: cs => p = c && has_pref ps cs

/-- Helper for Python `cmd.split()`: cut on runs of whitespace, dropping
empty pieces; `acc` holds the current word reversed. -/
def words_aux : List Char → List Char → List (List Char)
  | [], acc => if acc.isEmpty then [] else [acc.reverse]
  | c :: cs, acc =>
    if is_ws c then
      if acc.isEmpty then words_aux cs [] else acc.reverse :: words_aux cs []
    else
      words_aux cs (c :: acc)

/-- Python `cmd.split()` with no argument. -/
def py_split (cs : List Char) : List (List Char) := words_aux cs []

/-- One decimal digit as read by Python `int(...)`. -/
def dec_digit (c : Char) : Option Nat :=
  if c.isDigit then some (c.toNat - 48) else none

/-- Accumulating decimal evaluation of a digit string; `none` as soon as a
non-digit appears. -/
def dec_digits_aux : List Char → Nat → Option Nat
  | [], acc => some acc
  | c :: cs, acc =>
    match dec_digit c with
    | some d => dec_digits_aux cs (acc * 10 + d)
    | none => none

/-- Python `int(token)` on a whitespace-free token: an optional sign followed
by at least one decimal digit; `none` exactly when the call would raise
`ValueError`. -/
def py_int (cs : List Char) : Option Int :=
  match cs with
  | [] => none
  | '+' :: rest =>
    if rest.isEmpty then none else (dec_digits_aux rest 0).map (fun n => (n : Int))
  | '-' :: rest =>
    if rest.isEmpty then none else (dec_digits_aux rest 0).map (fun n => -(n : Int))
  | _ => (dec_digits_aux cs 0).map (fun n => (n : Int))

/-- The parsed command intents of the controller (spec section 3). -/
inductive Command
  | setDuty (p : Int)
  | startCapture (s : Int)
  | malformed
deriving DecidableEq

/-- Python `int(cmd.split()[1])` under the source's bare `except`: `none`
when either the indexing (`IndexError`) or the parse (`ValueError`) raises. -/
def arg_int (c : List Char) : Option Int := ((py_split c).get? 1).bind py_int

/-- Command interpretation performed by `process_command`
(`Completo.py` lines 92-125): `cmd.strip().upper()`, then dispatch on the
prefixes `START` / `PWM`; the argument is `int(cmd.split()[1])` defaulting to
20 (START) or 0 (PWM) when missing or unparsable, then clamped by
`min(max(value, 1), 100)` resp. `min(max(value, 0), 100)`.  A line matching
neither prefix falls through the function without effect: that is the
`malformed` case.  (The source applies the clamp inside `process_command`
after parsing; folding it into `parse` leaves the composite behavior
identical.) -/
def parse (line : String) : Command :=
  let c := upper_chars (strip_chars line.data)
  if has_pref ("START".data) c then
    Command.startCapture (min (max ((arg_int c).getD 20) 1) 100)
  else if has_pref ("PWM".data) c then
    Command.setDuty (min (max ((arg_int c).getD 0) 0) 100)
  else
    Command.malformed

/-- The three states of `current_state` (`Completo.py` lines 70-72). -/
inductive Mode
  | idle
  | manual_pwm
  | capturing
deriving DecidableEq

/-- The operator-channel lines printed by the program, one constructor per
`print` in the source (both variants); the payloads of a report are the
values interpolated into it. -/
inductive Msg
  | captureStarted            -- "Captura iniciada..." (line 113)
  | openError                 -- "Error al abrir archivo: ..." (line 110)
  | manualOn                  -- "Modo manual activado" (line 125)
  | writeError                -- "Error al escribir en archivo" (line 173)
  | captureDone               -- "Captura finalizada" (line 198)
  | manualReport (pwm rpm : Int)  -- "PWM: ...% | RPM: ..." (line 180)
  | invalidStep               -- "ERROR: Paso invalido" (RPM_Punto2.py line 118)
  | invalidPwm                -- "ERROR: PWM fuera de rango" (RPM_Punto2.py line 128)
  | malformedCmd              -- "ERROR: Comando mal formado" (RPM_Punto2.py lines 122/132)
deriving DecidableEq

/-- State of the target file `curvita.csv` as seen through `csv_file`:
`noFile` is the initial `None`, `opened rows` an open handle with the sample
rows written so far (the header line written at open is implicit in
`opened`), `closedF rows` a closed handle whose rows persist on storage. -/
inductive FileSt
  | noFile
  | opened (rows : List (Int × Int × Int))
  | closedF (rows : List (Int × Int × Int))
deriving DecidableEq

/-- The cleanup `if csv_file: csv_file.close()` — `None` is falsy, so it is left alone;
closing an already-closed handle changes nothing. -/
def close_file : FileSt → FileSt
  | FileSt.noFile => FileSt.noFile
  | FileSt.opened rows => FileSt.closedF rows
  | FileSt.closedF rows => FileSt.closedF rows

/-- The mutable globals of `Completo.py` (lines 52-67 and 138-142), plus the
duty last handed to `enA.duty_u16` and the operator output transcript. -/
structure Sys where
  current_state : Mode
  current_pwm : Int
  pwm_step : Int
  descending : Bool
  just_changed_pwm : Bool
  pwm_change_time : Int
  start_time : Int
  last_step_time : Int
  last_sample_time : Int
  last_print_time : Int
  duty_u16 : Int
  csv_file : FileSt
  outputs : List Msg
deriving DecidableEq

/-- Constant `pulses_per_revolution` (line 38). -/
def pulses_per_revolution : Nat := 20

/-- Constant `sample_interval`, ms (line 42). -/
def sample_interval : Nat := 4

/-- Constant `step_interval`, ms (line 46). -/
def step_interval : Nat := 2000

/-- Constant `print_interval`, ms (line 50). -/
def print_interval : Nat := 500

/-- The computation `rpm = (count * 60000) / (pulses_per_revolution * sample_interval)`
(line 161) followed by the `int(rpm)` at the use sites (lines 171/180).  The
divisor 80 divides `count * 60000` exactly, so the Python float division and
truncation coincide with this natural-number division. -/
def rpm_of (count : Nat) : Int :=
  ((count * 60000) / (pulses_per_revolution * sample_interval) : Nat)

/-- Effect of one parsed command on the globals (`process_command`,
`Completo.py` lines 94-125).  `open_ok` injects the outcome of
`open("curvita.csv", "w")`: on failure the source prints the error and
returns before reaching `current_state = CAPTURING`, leaving `csv_file` as it
was; on success the file is opened in mode `"w"`, truncating whatever the
previous session had written. -/
def apply_command (c : Command) (open_ok : Bool) (now : Int) (st : Sys) : Sys :=
  match c with
  | Command.startCapture s =>
    let st1 : Sys :=
      { st with pwm_step := s, current_pwm := 0, descending := false,
                duty_u16 := 0, start_time := now, last_step_time := now }
    if open_ok then
      { st1 with csv_file := FileSt.opened [], current_state := Mode.capturing,
                 outputs := st1.outputs ++ [Msg.captureStarted] }
    else
      { st1 with outputs := st1.outputs ++ [Msg.openError] }
  | Command.setDuty p =>
    { st with current_pwm := p, duty_u16 := p * 65535 / 100,
              current_state := Mode.manual_pwm,
              outputs := st.outputs ++ [Msg.manualOn] }
  | Command.malformed => st

/-- The handler `process_command(cmd)` on one received line. -/
def process_command (line : String) (open_ok : Bool) (now : Int) (st : Sys) : Sys :=
  apply_command (parse line) open_ok now st

/-- The write `csv_file.write(f"{delta};{current_pwm};{int(rpm)}\n")` under its
`try/except` (lines 170-176): the row is appended when the handle is open and
the injected `write_ok` holds; any failure (injected, handle `None`, handle
closed) runs the except branch — diagnostic, `current_state = IDLE`, close. -/
def write_sample (write_ok : Bool) (delta pwm rpmv : Int) (st : Sys) : Sys :=
  match st.csv_file with
  | FileSt.opened rows =>
    if write_ok then
      { st with csv_file := FileSt.opened (rows ++ [(delta, pwm, rpmv)]) }
    else
      { st with outputs := st.outputs ++ [Msg.writeError],
                current_state := Mode.idle, csv_file := FileSt.closedF rows }
  | f =>
    { st with outputs := st.outputs ++ [Msg.writeError],
              current_state := Mode.idle, csv_file := close_file f }

/-- The sampling-tick section of the main loop (lines 157-180).  The returned
Bool records whether the source executed `continue` (line 167), which skips
the step-tick section for that pass.  `count` is the pulse count consumed at
lines 159-160; its interaction with the interrupt handler is modeled
separately (`PulseSt`). -/
def sampling_tick (now : Int) (count : Nat) (write_ok : Bool) (st : Sys) :
    Sys × Bool :=
  if (sample_interval : Int) ≤ now - st.last_sample_time then
    match st.current_state with
    | Mode.capturing =>
      if st.just_changed_pwm = true ∧ now - st.pwm_change_time < 100 then
        ({ st with last_sample_time := now }, true)
      else
        (write_sample write_ok (now - st.start_time) st.current_pwm (rpm_of count)
           { st with last_sample_time := now, just_changed_pwm := false }, false)
    | Mode.manual_pwm =>
      if (print_interval : Int) ≤ now - st.last_print_time then
        ({ st with last_sample_time := now, last_print_time := now,
                   outputs := st.outputs
                     ++ [Msg.manualReport st.current_pwm (rpm_of count)] },
         false)
      else
        ({ st with last_sample_time := now }, false)
    | Mode.idle => ({ st with last_sample_time := now }, false)
  else
    (st, false)

/-- One PWM step (lines 186-191): ascending, `min(current_pwm + pwm_step, 100)`
and `descending` becomes true at 100; descending, `max(current_pwm - pwm_step, 0)`. -/
def step_pwm (s p : Int) (desc : Bool) : Int × Bool :=
  if desc = false then
    let p1 := min (p + s) 100
    (p1, decide (100 ≤ p1))
  else
    (max (p - s) 0, true)

/-- The step-tick section of the main loop (lines 183-203).  The terminal
descending step (result 0) finalizes the capture: duty off, `IDLE`, file
closed, completion message, and — via the `continue` at line 199 — no
settling flag is armed for it. -/
def step_tick (now : Int) (st : Sys) : Sys :=
  if st.current_state = Mode.capturing ∧ (step_interval : Int) ≤ now - st.last_step_time then
    let st1 : Sys := { st with last_step_time := now }
    let pd := step_pwm st1.pwm_step st1.current_pwm st1.descending
    if st1.descending = true ∧ pd.1 ≤ 0 then
      { st1 with current_pwm := 0, duty_u16 := 0, current_state := Mode.idle,
                 csv_file := close_file st1.csv_file,
                 outputs := st1.outputs ++ [Msg.captureDone] }
    else
      { st1 with current_pwm := pd.1, descending := pd.2,
                 duty_u16 := pd.1 * 65535 / 100,
                 just_changed_pwm := true, pwm_change_time := now }
  else
    st

/-- Inputs consumed by one pass of the `while True` loop: the clock value
read at line 154, the complete command lines delivered by the non-blocking
read, the pulses accumulated by the encoder interrupt since the last
sampling tick, and the injected storage outcomes. -/
structure Env where
  now : Int
  cmds : List String
  pulses : Nat
  open_ok : Bool
  write_ok : Bool

/-- One pass of the main loop (lines 144-203): poll and process command
lines, sampling tick, then — unless the sampling tick executed `continue` —
the step tick. -/
def loop_iter (e : Env) (st : Sys) : Sys :=
  let st0 := e.cmds.foldl (fun s line => process_command line e.open_ok e.now s) st
  let r := sampling_tick e.now e.pulses e.write_ok st0
  if r.2 then r.1 else step_tick e.now r.1

/-- A finite run of the main loop. -/
def run_loop (st : Sys) (envs : List Env) : Sys :=
  envs.foldl (fun s e => loop_iter e s) st

/-- The startup state (lines 59-67 and 138-142).  `pwm_step` and `start_time`
are unassigned in the source until the first START, which always assigns them
before any read; their initial values here are arbitrary. -/
def init_sys : Sys :=
  { current_state := Mode.idle, current_pwm := 0, pwm_step := 20,
    descending := false, just_changed_pwm := false, pwm_change_time := 0,
    start_time := 0, last_step_time := 0, last_sample_time := 0,
    last_print_time := 0, duty_u16 := 0, csv_file := FileSt.noFile,
    outputs := [] }

/-- The sample rows currently recorded on storage for the session file. -/
def session_rows (st : Sys) : List (Int × Int × Int) :=
  match st.csv_file with
  | FileSt.noFile => []
  | FileSt.opened rows => rows
  | FileSt.closedF rows => rows

/-- The duty values applied by successive step ticks of one capture, taken
directly from the step logic of lines 186-199 (`step_pwm` plus the terminal
test `current_pwm <= 0` of the descending branch, which emits the final 0 and
finalizes).  Fuel-indexed structural recursion; `step_profile_spec` certifies
by computation that fuel 300 is ample for every step size in [1,100]. -/
def profile_aux (s : Int) : Nat → Int → Bool → List Int
  | 0, _, _ => []
  | fuel + 1, p, desc =>
    let pd := step_pwm s p desc
    if desc = true ∧ pd.1 ≤ 0 then [0]
    else pd.1 :: profile_aux s fuel pd.1 pd.2

/-- The full applied-duty sequence of a capture with step `s`: the duty 0
applied when START is accepted (line 103), then the step-tick values. -/
def profile (s : Int) : List Int := 0 :: profile_aux s 300 0 false

/-- Ceiling `100 / s`: the number of stride-`s` steps that move across [0,100]. -/
def steps_needed (s : Nat) : Nat := (100 + s - 1) / s

/-- Modelled from the claim's words: the ascending half, `+s` per step
clamped at 100. -/
def spec_asc (s : Nat) : List Int :=
  (List.range (steps_needed s)).map (fun i => min (((i + 1) * s : Nat) : Int) 100)

/-- Modelled from the claim's words: the descending half, resuming from 100
with the same fixed step, `-s` per step clamped at 0, ending exactly at 0. -/
def spec_desc (s : Nat) : List Int :=
  (List.range (steps_needed s)).map (fun j => max (100 - (((j + 1) * s : Nat) : Int)) 0)

/-- Modelled from the claim's words: start at 0, ascend, then descend,
terminating exactly when a descending step reaches 0 (the final element). -/
def spec_profile (s : Nat) : List Int := 0 :: (spec_asc s ++ spec_desc s)

/-- The states of the `RPM_Punto2.py` variant (its `state` global). -/
inductive RMode
  | ridle
  | rmanual
  | rcapture
deriving DecidableEq

/-- The globals of `RPM_Punto2.py` touched by its command branch. -/
structure RSys where
  state : RMode
  current_pwm : Int
  capture_data : List (Int × Int × Int)
  step_size : Int
  direction : Int
  outputs : List Msg
deriving DecidableEq

/-- Function `set_pwm(duty)` of `RPM_Punto2.py` (lines 41-48): saturate to [0,100]. -/
def r_set_pwm (duty : Int) (st : RSys) : RSys :=
  let d := if duty < 0 then 0 else if 100 < duty then 100 else duty
  { st with current_pwm := d }

/-- Function `start_capture(step)` of `RPM_Punto2.py` (lines 51-56). -/
def r_start_capture (st : RSys) : RSys :=
  r_set_pwm 0 { st with capture_data := [], direction := 1, state := RMode.rcapture }

/-- Function `manual_pwm(value)` of `RPM_Punto2.py` (lines 59-62). -/
def r_manual_pwm (v : Int) (st : RSys) : RSys :=
  { r_set_pwm v st with state := RMode.rmanual }

/-- The command-reading branch of `monitor_loop` (`RPM_Punto2.py` lines
111-132).  Unlike `Completo.py` it is case-sensitive, requires an explicit
argument, and rejects out-of-range values instead of clamping; note that
`step_size = int(cmd.split()[1])` assigns the global before the range check,
so a rejected START still overwrites `step_size`. -/
def r_process_command (line : String) (st : RSys) : RSys :=
  let c := strip_chars line.data
  if has_pref ("START".data) c then
    match arg_int c with
    | some n =>
      let st1 : RSys := { st with step_size := n }
      if n ≤ 0 ∨ 100 ≤ n then
        { st1 with outputs := st1.outputs ++ [Msg.invalidStep] }
      else
        r_start_capture st1
    | none => { st with outputs := st.outputs ++ [Msg.malformedCmd] }
  else if has_pref ("PWM".data) c then
    match arg_int c with
    | some v =>
      if v < 0 ∨ 100 < v then
        { st with outputs := st.outputs ++ [Msg.invalidPwm] }
      else
        r_manual_pwm v st
    | none => { st with outputs := st.outputs ++ [Msg.malformedCmd] }
  else
    st

/-- The explicitly supplied integer argument of a START line, for the
`RPM_Punto2.py` dialect (case-sensitive prefix). -/
def r_start_arg (line : String) : Option Int :=
  if has_pref ("START".data) (strip_chars line.data) then
    arg_int (strip_chars line.data)
  else
    none

/-- The shared pulse-counting state: `pulse_count` (the global written by the
`count_pulse` interrupt handler, line 79, and by lines 159-160 of the main
loop), the loop-local `count`, the running sum of the values the loop has
consumed, the total edges delivered, and the total delivered at the moment of
the most recent reset. -/
structure PulseSt where
  pulse_count : Nat
  count_reg : Nat
  consumed_sum : Nat
  delivered : Nat
  delivered_at_reset : Nat
deriving DecidableEq

/-- The atomic operations on the shared counter.  `edge` is the interrupt
body `pulse_count += 1` (line 79); the loop's consume-and-reset is the TWO
separate statements `count = pulse_count` (`consumeRead`, line 159) and
`pulse_count = 0` (`consumeReset`, line 160), between which an interrupt can
fire. -/
inductive POp
  | edge
  | consumeRead
  | consumeReset
deriving DecidableEq

/-- One atomic operation on the shared state. -/
def pulse_step (s : PulseSt) : POp → PulseSt
  | POp.edge =>
    { s with pulse_count := s.pulse_count + 1, delivered := s.delivered + 1 }
  | POp.consumeRead => { s with count_reg := s.pulse_count }
  | POp.consumeReset =>
    { s with pulse_count := 0, consumed_sum := s.consumed_sum + s.count_reg,
             delivered_at_reset := s.delivered }

/-- An interleaving of interrupt edges with the loop's read/reset pairs. -/
def pulse_run (ops : List POp) : PulseSt :=
  ops.foldl pulse_step ⟨0, 0, 0, 0, 0⟩

/-- Modelled from the spec: `SpeedEstimator.estimate` (spec section 4.2) —
this component exists in the source only as the inlined fixed-interval
computation `rpm_of`; the spec's general form with an `elapsed_seconds`
argument and its divide-by-zero guard are not in `src/`, so they are
transcribed from the spec's words here and related to `rpm_of` by theorem. -/
def estimate (pulse_count : Nat) (elapsed_seconds : ℚ) (ppr : Nat) : Int :=
  if elapsed_seconds ≤ 0 then 0
  else round ((pulse_count : ℚ) / (ppr : ℚ) / elapsed_seconds * 60)

/-- Loop pass delivering `START 20` at t = 0 on a fresh system. -/
def env_a : Env := ⟨0, ["START 20"], 0, true, true⟩

/-- Loop pass at t = 2000: a sample is recorded, then the first step tick
raises the duty to 20 and arms the settling flag at t = 2000. -/
def env_b : Env := ⟨2000, [], 5, true, true⟩

/-- Loop pass at t = 2040: a new `START 20` is accepted 40 ms after the step
change, and the sampling tick of the same pass is the first one of the new
session. -/
def env_c : Env := ⟨2040, ["START 20"], 5, true, true⟩

/-- Invariant tracking the settling window armed by a step-tick duty change
at time `T`: either the flag is still set and `pwm_change_time` is at or
after `T` (a change at `T` or a later one), or some sampling tick already
cleared the flag — which the code only does at a tick at least 100 ms past
the recorded change time, hence at or after `T + 100`. -/
def SettleInv (T : Int) (st : Sys) : Prop :=
  (st.just_changed_pwm = true ∧ T ≤ st.pwm_change_time) ∨
  (st.just_changed_pwm = false ∧ T + 100 ≤ st.last_sample_time)

/-- C1: for every step size s in [1,100] the CAPTURE duty sequence starts at
0, ascends by +s clamped at 100, then descends by -s clamped at 0,
terminating exactly when a descending step reaches 0 (`spec_profile` is that
description in closed form); in particular the s=20 and s=30 sequences are
the ones stated, with the clamp-then-continue rule at 100. -/
theorem step_profile_spec :
    (∀ s ∈ Finset.Icc (1 : Nat) 100, profile (s : Int) = spec_profile s) ∧
    profile 20 = [0, 20, 40, 60, 80, 100, 80, 60, 40, 20, 0] ∧
    profile 30 = [0, 30, 60, 90, 100, 70, 40, 10, 0] := by
  set_option maxRecDepth 4000 in decide

/-- Witness for `step_profile_spec`: its universally quantified part applied
at the concrete step size 20. -/
theorem step_profile_spec_witness : profile ((20 : Nat) : Int) = spec_profile 20 :=
  step_profile_spec.1 20 (by decide)

/-- C3 (confirmed): from every current mode, an accepted StartCapture moves
the machine to CAPTURING, opens a fresh session truncating the target file
(no append to prior rows, whatever `st.csv_file` held), resets the duty to 0
and the elapsed-time origin and step timer to now, and records the clamped
step. -/
theorem start_opens_fresh_session (st : Sys) (now : Int) (line : String) (s : Int)
    (hp : parse line = Command.startCapture s) :
    (process_command line true now st).current_state = Mode.capturing ∧
    (process_command line true now st).current_pwm = 0 ∧
    (process_command line true now st).start_time = now ∧
    (process_command line true now st).csv_file = FileSt.opened [] ∧
    (process_command line true now st).pwm_step = s ∧
    (process_command line true now st).descending = false ∧
    (process_command line true now st).last_step_time = now := by
  rw [process_command, hp]
  exact ⟨rfl, rfl, rfl, rfl, rfl, rfl, rfl⟩

/-- Witness for `start_opens_fresh_session`: START received in MANUAL mode
with a prior session's rows still in the file. -/
theorem start_opens_fresh_session_witness :
    (process_command "start 15" true 7
        { init_sys with current_state := Mode.manual_pwm,
                        csv_file := FileSt.opened [(1, 2, 3)] }).current_state
      = Mode.capturing ∧
    (process_command "start 15" true 7
        { init_sys with current_state := Mode.manual_pwm,
                        csv_file := FileSt.opened [(1, 2, 3)] }).csv_file
      = FileSt.opened [] :=
  let h := start_opens_fresh_session
    { init_sys with current_state := Mode.manual_pwm,
                    csv_file := FileSt.opened [(1, 2, 3)] } 7 "start 15" 15 (by decide)
  ⟨h.1, h.2.2.2.1⟩

/-- C4 counterexample: the source matches command keywords by PREFIX
(`cmd.startswith("START")`), so "STARTED 5" — which is not of the form
`START <n>` and should be `Malformed` under the claim's "any other line"
rule — parses as `StartCapture 5`. -/
theorem parse_keyword_cex :
    parse "STARTED 5" = Command.startCapture 5 ∧
    Command.startCapture 5 ≠ Command.malformed := by
  exact ⟨by decide, by decide⟩

/-- C4 amended: keyword matching is case-insensitive and by prefix: any line
whose stripped, uppercased form starts with "START" is a START command
(argument = second whitespace token, parsed as an integer, defaulting to 20
when missing or unparsable, clamped to [1,100]); any remaining line starting
with "PWM" is a PWM command (default 0, clamp [0,100]); only lines starting
with neither prefix yield Malformed.  All of the claim's examples hold. -/
theorem parse_spec_amended :
    (parse "start 15" = Command.startCapture 15) ∧
    (parse "StArT 15" = Command.startCapture 15) ∧
    (parse "start" = Command.startCapture 20) ∧
    (parse "start abc" = Command.startCapture 20) ∧
    (parse "START 0" = Command.startCapture 1) ∧
    (parse "START -7" = Command.startCapture 1) ∧
    (parse "START 500" = Command.startCapture 100) ∧
    (parse "PWM 500" = Command.setDuty 100) ∧
    (parse "pwm 500" = Command.setDuty 100) ∧
    (parse "PWM" = Command.setDuty 0) ∧
    (parse "PWM abc" = Command.setDuty 0) ∧
    (parse "PWM -3" = Command.setDuty 0) ∧
    (parse "foo" = Command.malformed) ∧
    (parse "" = Command.malformed) ∧
    (∀ line : String,
      has_pref ("START".data) (upper_chars (strip_chars line.data)) = false →
      has_pref ("PWM".data) (upper_chars (strip_chars line.data)) = false →
      parse line = Command.malformed) ∧
    (∀ (line : String) (n : Int),
      has_pref ("START".data) (upper_chars (strip_chars line.data)) = true →
      arg_int (upper_chars (strip_chars line.data)) = some n →
      parse line = Command.startCapture (min (max n 1) 100)) ∧
    (∀ line : String,
      has_pref ("START".data) (upper_chars (strip_chars line.data)) = true →
      arg_int (upper_chars (strip_chars line.data)) = none →
      parse line = Command.startCapture 20) ∧
    (∀ (line : String) (v : Int),
      has_pref ("START".data) (upper_chars (strip_chars line.data)) = false →
      has_pref ("PWM".data) (upper_chars (strip_chars line.data)) = true →
      arg_int (upper_chars (strip_chars line.data)) = some v →
      parse line = Command.setDuty (min (max v 0) 100)) ∧
    (∀ line : String,
      has_pref ("START".data) (upper_chars (strip_chars line.data)) = false →
      has_pref ("PWM".data) (upper_chars (strip_chars line.data)) = true →
      arg_int (upper_chars (strip_chars line.data)) = none →
      parse line = Command.setDuty 0) := by
  refine ⟨by decide, by decide, by decide, by decide, by decide, by decide, by decide,
          by decide, by decide, by decide, by decide, by decide, by decide, by decide,
          ?_, ?_, ?_, ?_, ?_⟩
  · intro line h1 h2
    simp [parse, h1, h2]
  · intro line n h1 h2
    simp [parse, h1, h2]
  · intro line h1 h2
    simp [parse, h1, h2]
  · intro line v h1 h2 h3
    simp [parse, h1, h2, h3]
  · intro line h1 h2 h3
    simp [parse, h1, h2, h3]

/-- Witness for `parse_spec_amended`: its malformed rule applied to the
concrete line "bar". -/
theorem parse_spec_amended_witness : parse "bar" = Command.malformed :=
  parse_spec_amended.2.2.2.2.2.2.2.2.2.2.2.2.2.2.1 "bar" (by decide) (by decide)

/-- C5 (confirmed): the estimator returns 0 for a zero pulse count and for
every non-positive elapsed interval, and the source's inlined fixed-interval
computation (line 161, `rpm_of`) agrees with the spec formula
`round(count / ppr / elapsed * 60)` at ppr = 20 and elapsed = 4 ms. -/
theorem speed_estimate_spec :
    (∀ e : ℚ, 0 < e → estimate 0 e 20 = 0) ∧
    (∀ (c : Nat) (e : ℚ), e ≤ 0 → estimate c e 20 = 0) ∧
    (∀ c : Nat, rpm_of c = estimate c (4 / 1000) 20) := by
  refine ⟨?_, ?_, ?_⟩
  · intro e he
    simp [estimate, not_le.mpr he]
  · intro c e he
    rw [estimate, if_pos he]
  · intro c
    have h4 : ¬((4 / 1000 : ℚ) ≤ 0) := by norm_num
    rw [estimate, if_neg h4]
    have hq : ((c : ℚ) / ((20 : Nat) : ℚ) / (4 / 1000) * 60) = ((750 * c : ℤ) : ℚ) := by
      push_cast
      ring
    rw [hq, round_intCast]
    have hn : c * 60000 / (pulses_per_revolution * sample_interval) = 750 * c := by
      unfold pulses_per_revolution sample_interval
      omega
    rw [rpm_of, hn]
    push_cast
    ring

/-- Witness for `speed_estimate_spec`: the three parts at concrete inputs. -/
theorem speed_estimate_spec_witness :
    estimate 0 1 20 = 0 ∧ estimate 7 0 20 = 0 ∧ rpm_of 3 = estimate 3 (4 / 1000) 20 :=
  ⟨speed_estimate_spec.1 1 (by norm_num), speed_estimate_spec.2.1 7 0 (by norm_num),
   speed_estimate_spec.2.2 3⟩

/-- C6 counterexample: an unrecognized command falls through
`process_command` with no effect at all — in particular NO diagnostic line is
printed, where the claim requires one. -/
theorem malformed_silent_cex :
    process_command "foo" true 0 init_sys = init_sys ∧
    (process_command "foo" true 0 init_sys).outputs = [] ∧
    ¬ ∃ d : Msg, (process_command "foo" true 0 init_sys).outputs
        = init_sys.outputs ++ [d] := by
  refine ⟨by decide, by decide, ?_⟩
  rintro ⟨d, hd⟩
  have h : (process_command "foo" true 0 init_sys).outputs = [] := by decide
  rw [h] at hd
  simp [init_sys] at hd

/-- C6 amended: for every state, a malformed command leaves the whole state —
mode, duty, session, and the operator transcript — unchanged; it is silently
ignored, with no diagnostic. -/
theorem malformed_no_effect (st : Sys) (line : String) (ok : Bool) (now : Int)
    (h : parse line = Command.malformed) :
    process_command line ok now st = st := by
  rw [process_command, h]
  rfl

/-- Witness for `malformed_no_effect` at the concrete line "foo". -/
theorem malformed_no_effect_witness :
    process_command "foo" true 3
        { init_sys with current_state := Mode.manual_pwm, current_pwm := 55 }
      = { init_sys with current_state := Mode.manual_pwm, current_pwm := 55 } :=
  malformed_no_effect _ "foo" true 3 (by decide)

/-- C9 counterexample: in `Completo.py` an explicitly supplied step of 500 is
NOT rejected — it is clamped to 100 and a session starts at once (mode
becomes CAPTURING and the file is truncated), where the claim requires the
previous mode (IDLE) to be retained with no file touched. -/
theorem step_out_of_range_cex :
    init_sys.current_state = Mode.idle ∧
    (process_command "START 500" true 0 init_sys).current_state = Mode.capturing ∧
    (process_command "START 500" true 0 init_sys).csv_file = FileSt.opened [] ∧
    (process_command "START 500" true 0 init_sys).pwm_step = 100 := by
  decide

/-- C9 amended: in the canonical `Completo.py`, an explicitly supplied step
outside [1,100] is clamped into [1,100] and the capture starts normally (a
parsed START step always lies in [1,100] and the session opens); only the
`RPM_Punto2.py` variant rejects an explicit out-of-range step — there, a
START whose argument is ≤ 0 or ≥ 100 leaves mode, session data and duty
unchanged and surfaces the range diagnostic (its `step_size` global is
overwritten before the check, and 100 itself is also rejected). -/
theorem step_range_amended :
    (∀ (line : String) (n : Int),
      parse line = Command.startCapture n → 1 ≤ n ∧ n ≤ 100) ∧
    (∀ (st : Sys) (now : Int) (n : Int),
      (apply_command (Command.startCapture n) true now st).current_state
          = Mode.capturing ∧
      (apply_command (Command.startCapture n) true now st).csv_file
          = FileSt.opened []) ∧
    (∀ (st : RSys) (line : String) (n : Int),
      r_start_arg line = some n → (n ≤ 0 ∨ 100 ≤ n) →
      (r_process_command line st).state = st.state ∧
      (r_process_command line st).capture_data = st.capture_data ∧
      (r_process_command line st).current_pwm = st.current_pwm ∧
      (r_process_command line st).outputs = st.outputs ++ [Msg.invalidStep]) := by
  refine ⟨?_, ?_, ?_⟩
  · intro line n h
    rw [parse] at h
    split at h
    · cases h
      constructor
      · exact le_min (le_max_right _ _) (by norm_num)
      · exact min_le_right _ _
    · split at h
      · cases h
      · cases h
  · intro st now n
    exact ⟨rfl, rfl⟩
  · intro st line n hs hr
    rw [r_start_arg] at hs
    split at hs
    case isTrue hp =>
      rw [r_process_command]
      simp only [hp, if_true, hs]
      rw [if_pos hr]
      exact ⟨rfl, rfl, rfl, rfl⟩
    case isFalse hp =>
      cases hs

/-- A state in IDLE mode never writes to the session file on a sampling
tick. -/
theorem sampling_tick_idle_csv (n : Int) (c : Nat) (w : Bool) (st : Sys)
    (h : st.current_state = Mode.idle) :
    (sampling_tick n c w st).1.csv_file = st.csv_file := by
  unfold sampling_tick
  split
  · rw [h]
  · rfl

/-- C2 (confirmed): a storage write failure while appending during CAPTURING
is session-fatal within that very sampling tick — the mode is forced to
IDLE, the file is closed with only the previously recorded rows (the failed
row is never retried), the diagnostic is surfaced — no later sampling tick
writes anything for that session, and a subsequent START still succeeds and
opens a fresh session. -/
theorem write_failure_aborts (st : Sys) (now now2 : Int) (count : Nat)
    (rows : List (Int × Int × Int))
    (hm : st.current_state = Mode.capturing)
    (hf : st.csv_file = FileSt.opened rows)
    (hfire : (sample_interval : Int) ≤ now - st.last_sample_time)
    (hnosup : ¬(st.just_changed_pwm = true ∧ now - st.pwm_change_time < 100)) :
    ((sampling_tick now count false st).1.current_state = Mode.idle) ∧
    ((sampling_tick now count false st).1.csv_file = FileSt.closedF rows) ∧
    ((sampling_tick now count false st).1.outputs = st.outputs ++ [Msg.writeError]) ∧
    (∀ (n2 : Int) (c2 : Nat) (w2 : Bool),
      (sampling_tick n2 c2 w2 (sampling_tick now count false st).1).1.csv_file
        = (sampling_tick now count false st).1.csv_file) ∧
    ((process_command "START 20" true now2
        (sampling_tick now count false st).1).current_state = Mode.capturing) ∧
    ((process_command "START 20" true now2
        (sampling_tick now count false st).1).csv_file = FileSt.opened []) := by
  have h1 : (sampling_tick now count false st).1
      = write_sample false (now - st.start_time) st.current_pwm (rpm_of count)
          { st with last_sample_time := now, just_changed_pwm := false } := by
    unfold sampling_tick
    rw [if_pos hfire, hm, if_neg hnosup]
  have h2 : write_sample false (now - st.start_time) st.current_pwm (rpm_of count)
        { st with last_sample_time := now, just_changed_pwm := false }
      = { st with last_sample_time := now, just_changed_pwm := false,
                  outputs := st.outputs ++ [Msg.writeError],
                  current_state := Mode.idle, csv_file := FileSt.closedF rows } := by
    unfold write_sample
    dsimp only
    rw [hf]
    rfl
  rw [h1, h2]
  have hp : parse "START 20" = Command.startCapture 20 := by decide
  refine ⟨rfl, rfl, rfl, ?_, ?_, ?_⟩
  · intro n2 c2 w2
    exact sampling_tick_idle_csv n2 c2 w2 _ rfl
  · rw [process_command, hp]
    rfl
  · rw [process_command, hp]
    rfl

/-- Witness for `write_failure_aborts`: a concrete mid-capture state with an
injected write failure at t = 4. -/
theorem write_failure_aborts_witness :
    ((sampling_tick 4 0 false
        { init_sys with current_state := Mode.capturing,
                        csv_file := FileSt.opened [(1, 2, 3)] }).1.current_state
       = Mode.idle) ∧
    ((sampling_tick 4 0 false
        { init_sys with current_state := Mode.capturing,
                        csv_file := FileSt.opened [(1, 2, 3)] }).1.csv_file
       = FileSt.closedF [(1, 2, 3)]) ∧
    ((process_command "START 20" true 8
        (sampling_tick 4 0 false
          { init_sys with current_state := Mode.capturing,
                          csv_file := FileSt.opened [(1, 2, 3)] }).1).current_state
       = Mode.capturing) :=
  let h := write_failure_aborts
    { init_sys with current_state := Mode.capturing,
                    csv_file := FileSt.opened [(1, 2, 3)] }
    4 8 0 [(1, 2, 3)] (by decide) (by decide) (by decide) (by decide)
  ⟨h.1, h.2.1, h.2.2.2.2.1⟩

/-- C8 (code_bug): the loop's consume-and-reset is the non-atomic statement
pair `count = pulse_count; pulse_count = 0` (lines 159-160), so the
interrupt interleaving edge-read-edge-reset erases the second edge: one
consume call returns 1 while 2 edges were delivered before its reset, and
the consumed sum never recovers the lost edge. -/
theorem pulse_race_eval :
    (pulse_run [POp.edge, POp.consumeRead, POp.edge, POp.consumeReset]).consumed_sum
        = 1 ∧
    (pulse_run [POp.edge, POp.consumeRead, POp.edge,
        POp.consumeReset]).delivered_at_reset = 2 ∧
    (pulse_run [POp.edge, POp.consumeRead, POp.edge, POp.consumeReset]).pulse_count
        = 0 ∧
    (pulse_run [POp.edge, POp.consumeRead, POp.edge, POp.consumeReset]).consumed_sum
        ≠ (pulse_run [POp.edge, POp.consumeRead, POp.edge,
              POp.consumeReset]).delivered_at_reset := by
  decide

/-- C10 counterexample: after `env_a, env_b` a capture is running whose step
tick at t = 2000 armed the settling flag; the `START 20` of `env_c` is
accepted at t = 2040 and the sampling tick of that same pass — the very
first one of the new session — fires (`last_sample_time` becomes 2040) yet
appends nothing: the new session file is still empty, because the stale
settling flag of the PREVIOUS session suppressed the append. -/
theorem first_tick_suppressed_cex :
    (run_loop init_sys [env_a, env_b]).current_state = Mode.capturing ∧
    (run_loop init_sys [env_a, env_b]).just_changed_pwm = true ∧
    (run_loop init_sys [env_a, env_b]).pwm_change_time = 2000 ∧
    (run_loop init_sys [env_a, env_b]).csv_file = FileSt.opened [(2000, 0, 3750)] ∧
    (run_loop init_sys [env_a, env_b, env_c]).current_state = Mode.capturing ∧
    (run_loop init_sys [env_a, env_b, env_c]).start_time = 2040 ∧
    (run_loop init_sys [env_a, env_b, env_c]).last_sample_time = 2040 ∧
    (run_loop init_sys [env_a, env_b, env_c]).csv_file = FileSt.opened [] := by
  decide

/-- C10 amended: the settling suppression is armed only by a step-tick duty
change — an accepted START leaves `just_changed_pwm` and `pwm_change_time`
untouched — so whenever the settling flag is CLEAR when START is accepted
(e.g. from boot or IDLE), the very first sampling tick of the new session
does append a sample at duty 0.  (When a START is accepted within 100 ms of
a previous capture's step change, the stale flag suppresses that first
sample — `first_tick_suppressed_cex`.) -/
theorem first_tick_recorded_amended (st : Sys) (now0 now : Int) (line : String)
    (s : Int) (count : Nat)
    (hp : parse line = Command.startCapture s)
    (hflag : st.just_changed_pwm = false)
    (hfire : (sample_interval : Int) ≤ now - st.last_sample_time) :
    ((process_command line true now0 st).just_changed_pwm = st.just_changed_pwm ∧
     (process_command line true now0 st).pwm_change_time = st.pwm_change_time) ∧
    (sampling_tick now count true (process_command line true now0 st)).1.csv_file
        = FileSt.opened [(now - now0, 0, rpm_of count)] ∧
    (sampling_tick now count true (process_command line true now0 st)).2 = false := by
  have h1 : process_command line true now0 st
      = { st with pwm_step := s, current_pwm := 0, descending := false,
                  duty_u16 := 0, start_time := now0, last_step_time := now0,
                  csv_file := FileSt.opened [], current_state := Mode.capturing,
                  outputs := st.outputs ++ [Msg.captureStarted] } := by
    rw [process_command, hp]
    rfl
  rw [h1]
  refine ⟨⟨rfl, rfl⟩, ?_, ?_⟩
  · unfold sampling_tick
    dsimp only
    rw [if_pos hfire, hflag, if_neg (by simp)]
    rfl
  · unfold sampling_tick
    dsimp only
    rw [if_pos hfire, hflag, if_neg (by simp)]

/-- Witness for `first_tick_recorded_amended`: START at t = 0 from boot, the
first sampling tick at t = 4 records the duty-0 sample. -/
theorem first_tick_recorded_amended_witness :
    (sampling_tick 4 0 true (process_command "START 20" true 0 init_sys)).1.csv_file
        = FileSt.opened [(4, 0, 0)] :=
  (first_tick_recorded_amended init_sys 0 4 "START 20" 20 0 (by decide) (by decide)
    (by decide)).2.1

/-- Helper: `write_sample` never touches the settling flag, the recorded change time
or the sampling timer. -/
theorem write_sample_proj (w : Bool) (d p r : Int) (st : Sys) :
    (write_sample w d p r st).just_changed_pwm = st.just_changed_pwm ∧
    (write_sample w d p r st).pwm_change_time = st.pwm_change_time ∧
    (write_sample w d p r st).last_sample_time = st.last_sample_time := by
  unfold write_sample
  split
  · split
    · exact ⟨rfl, rfl, rfl⟩
    · exact ⟨rfl, rfl, rfl⟩
  · exact ⟨rfl, rfl, rfl⟩

/-- Command processing touches neither the settling flag, the change time,
nor the sampling timer, so it preserves `SettleInv`. -/
theorem settleInv_apply_command (T : Int) (c : Command) (ok : Bool) (now : Int)
    (st : Sys) (h : SettleInv T st) : SettleInv T (apply_command c ok now st) := by
  cases c with
  | setDuty p => exact h
  | malformed => exact h
  | startCapture s =>
    unfold apply_command
    dsimp only
    split
    · exact h
    · exact h

/-- The invariant `SettleInv` is preserved by processing one command line. -/
theorem settleInv_process_command (T : Int) (line : String) (ok : Bool)
    (now : Int) (st : Sys) (h : SettleInv T st) :
    SettleInv T (process_command line ok now st) :=
  settleInv_apply_command T (parse line) ok now st h

/-- The invariant `SettleInv` is preserved by processing a batch of command lines. -/
theorem settleInv_cmds (T : Int) (cmds : List String) (ok : Bool) (now : Int)
    (st : Sys) (h : SettleInv T st) :
    SettleInv T (cmds.foldl (fun s line => process_command line ok now s) st) := by
  induction cmds generalizing st with
  | nil => exact h
  | cons a l ih => exact ih _ (settleInv_process_command T a ok now st h)

/-- The invariant `SettleInv` is preserved by the sampling tick: a suppressed tick leaves
the flag armed; the tick that clears the flag can only fire at least 100 ms
past the recorded (hence past the original) change time. -/
theorem settleInv_sampling (T now : Int) (count : Nat) (w : Bool) (st : Sys)
    (h : SettleInv T st) : SettleInv T (sampling_tick now count w st).1 := by
  unfold sampling_tick
  split
  case isFalse => exact h
  case isTrue hfire =>
    have hfire4 : (4 : Int) ≤ now - st.last_sample_time := by
      simpa [sample_interval] using hfire
    split
    case h_1 =>
      split
      case isTrue hcond =>
        rcases h with ⟨hf, hc⟩ | ⟨hf, _⟩
        · exact Or.inl ⟨hf, hc⟩
        · rw [hf] at hcond
          exact absurd hcond.1 (by simp)
      case isFalse hcond =>
        rcases h with ⟨hf, hc⟩ | ⟨hf, hs⟩
        · push_neg at hcond
          have h100 := hcond hf
          unfold SettleInv
          rw [(write_sample_proj w _ _ _ _).1, (write_sample_proj w _ _ _ _).2.2]
          refine Or.inr ⟨rfl, ?_⟩
          show T + 100 ≤ now
          omega
        · unfold SettleInv
          rw [(write_sample_proj w _ _ _ _).1, (write_sample_proj w _ _ _ _).2.2]
          refine Or.inr ⟨rfl, ?_⟩
          show T + 100 ≤ now
          omega
    case h_2 =>
      split
      case isTrue =>
        rcases h with ⟨hf, hc⟩ | ⟨hf, hs⟩
        · exact Or.inl ⟨hf, hc⟩
        · refine Or.inr ⟨hf, ?_⟩
          show T + 100 ≤ now
          omega
      case isFalse =>
        rcases h with ⟨hf, hc⟩ | ⟨hf, hs⟩
        · exact Or.inl ⟨hf, hc⟩
        · refine Or.inr ⟨hf, ?_⟩
          show T + 100 ≤ now
          omega
    case h_3 =>
      rcases h with ⟨hf, hc⟩ | ⟨hf, hs⟩
      · exact Or.inl ⟨hf, hc⟩
      · refine Or.inr ⟨hf, ?_⟩
        show T + 100 ≤ now
        omega

/-- The invariant `SettleInv` is preserved by the step tick, provided the clock is at or
past `T`: a new duty change re-arms the flag at a time ≥ `T`, and the
terminal step touches none of the relevant fields. -/
theorem settleInv_step (T now : Int) (st : Sys) (hT : T ≤ now)
    (h : SettleInv T st) : SettleInv T (step_tick now st) := by
  unfold step_tick
  split
  case isFalse => exact h
  case isTrue =>
    dsimp only
    split
    case isTrue => exact h
    case isFalse => exact Or.inl ⟨rfl, hT⟩

/-- The invariant `SettleInv` is preserved by one whole loop pass at a clock value at or past `T`. -/
theorem settleInv_loop (T : Int) (e : Env) (st : Sys) (hT : T ≤ e.now)
    (h : SettleInv T st) : SettleInv T (loop_iter e st) := by
  unfold loop_iter
  dsimp only
  have h0 := settleInv_cmds T e.cmds e.open_ok e.now st h
  have h1 := settleInv_sampling T e.now e.pulses e.write_ok _ h0
  split
  · exact h1
  · exact settleInv_step T e.now _ hT h1

/-- The invariant `SettleInv` is preserved by any run whose clock values are all at or past `T`. -/
theorem settleInv_run (T : Int) (envs : List Env) (st : Sys)
    (hT : ∀ e ∈ envs, T ≤ e.now) (h : SettleInv T st) :
    SettleInv T (run_loop st envs) := by
  induction envs generalizing st with
  | nil => exact h
  | cons a l ih =>
    exact ih (loop_iter a st) (fun e he => hT e (List.mem_cons_of_mem a he))
      (settleInv_loop T a st (hT a (List.mem_cons_self a l)) h)

/-- C7 (confirmed): from any state in which a step-tick duty change has just
been applied at time `T` (settling flag armed, change time `T`), after any
further loop passes at clock values ≥ `T`, every sampling tick that fires in
CAPTURING mode at a time less than `T + 100` appends nothing to the session
(and executes the source's `continue`). -/
theorem settling_window_suppresses (T now : Int) (st0 : Sys) (envs : List Env)
    (count : Nat) (w : Bool)
    (hflag : st0.just_changed_pwm = true)
    (hchange : st0.pwm_change_time = T)
    (henv : ∀ e ∈ envs, T ≤ e.now)
    (hmode : (run_loop st0 envs).current_state = Mode.capturing)
    (hfire : (sample_interval : Int) ≤ now - (run_loop st0 envs).last_sample_time)
    (hwin : now - T < 100) :
    session_rows (sampling_tick now count w (run_loop st0 envs)).1
        = session_rows (run_loop st0 envs) ∧
    (sampling_tick now count w (run_loop st0 envs)).2 = true := by
  have hinv : SettleInv T (run_loop st0 envs) :=
    settleInv_run T envs st0 henv (Or.inl ⟨hflag, le_of_eq hchange.symm⟩)
  rcases hinv with ⟨hf, hc⟩ | ⟨hf, hs⟩
  · have hcond : (run_loop st0 envs).just_changed_pwm = true ∧
        now - (run_loop st0 envs).pwm_change_time < 100 := ⟨hf, by omega⟩
    unfold sampling_tick
    rw [if_pos hfire, hmode, if_pos hcond]
    exact ⟨rfl, rfl⟩
  · exfalso
    have hfire4 : (4 : Int) ≤ now - (run_loop st0 envs).last_sample_time := by
      simpa [sample_interval] using hfire
    omega

/-- Witness for `settling_window_suppresses`: flag armed at `T = 0`, no
further passes, a sampling tick firing at t = 4 inside the window. -/
theorem settling_window_suppresses_witness :
    session_rows (sampling_tick 4 0 true
        (run_loop { init_sys with current_state := Mode.capturing,
                                  just_changed_pwm := true } [])).1
        = session_rows (run_loop { init_sys with current_state := Mode.capturing,
                                                 just_changed_pwm := true } []) ∧
    (sampling_tick 4 0 true
        (run_loop { init_sys with current_state := Mode.capturing,
                                  just_changed_pwm := true } [])).2 = true :=
  settling_window_suppresses 0 4
    { init_sys with current_state := Mode.capturing, just_changed_pwm := true }
    [] 0 true (by decide) (by decide) (by simp) (by decide) (by decide) (by decide)

/-- Witness for `step_range_amended`: the Completo clamp at the parsed line
"START 500" and the RPM_Punto2 rejection of the same explicit argument. -/
theorem step_range_amended_witness :
    (1 ≤ (100 : Int) ∧ (100 : Int) ≤ 100) ∧
    (r_process_command "START 500"
        ⟨RMode.ridle, 0, [], 20, 1, []⟩).state = RMode.ridle ∧
    (r_process_command "START 500"
        ⟨RMode.ridle, 0, [], 20, 1, []⟩).outputs = [Msg.invalidStep] :=
  ⟨step_range_amended.1 "START 500" 100 (by decide),
   (step_range_amended.2.2 ⟨RMode.ridle, 0, [], 20, 1, []⟩ "START 500" 500
      (by decide) (by norm_num)).1,
   (step_range_amended.2.2 ⟨RMode.ridle, 0, [], 20, 1, []⟩ "START 500" 500
      (by decide) (by norm_num)).2.2.2⟩

end Motor
